import Mathlib

/-!
Verification development for the Tools Verdok spatial coordinate analysis
and overlay engine.

The visible repository code is the presentation layer
(src/frontend/src/pages/Home.js and its variants): it uploads a
spreadsheet, calls the backend operations analyze-coordinates and
download-shapefile, and renders the returned AnalysisResult.  The core
engine (Coordinate Parser, Geometry Builder, Overlay Engine, Shapefile
Encoder) is specified by its external contract; where its code is not in
the repository the definitions below are modelled from the spec and are
marked as such in their doc comments.  Coordinates are embedded as exact
rationals (decimal degrees).
-/

namespace Verdok

/-- A decimal-degree coordinate pair (latitude, longitude), embedded as
exact rationals. -/
structure Coord where
  lat : ℚ
  lon : ℚ
deriving DecidableEq, Inhabited

/-- The two accepted source formats of the Coordinate Parser. -/
inductive FormatType
  | decimalDegree
  | ossUTM
deriving DecidableEq, Inhabited

/-- The caller-supplied geometry-type selector. -/
inductive GeometryType
  | point
  | polygon
deriving DecidableEq, Inhabited

/-- CoordinateRecord: id (1-based row order), latitude/longitude in
decimal degrees, the source format, and sequence (original row order). -/
structure CoordinateRecord where
  id : Nat
  latitude : ℚ
  longitude : ℚ
  sourceFormat : FormatType
  sequence : Nat
deriving DecidableEq, Inhabited

/-- The (latitude, longitude) pair carried by a record. -/
def coordOf (r : CoordinateRecord) : Coord :=
  ⟨r.latitude, r.longitude⟩

/-- Geometry: tagged union of a PointSet (ordered CoordinateRecord list)
or a Polygon (ordered ring of CoordinateRecord, auto-closed). -/
inductive Geometry
  | pointSet (pts : List CoordinateRecord)
  | polygon (ring : List CoordinateRecord)
deriving DecidableEq, Inhabited

/-! ### Point-in-polygon primitive

Modelled from the spec: the backend intersection primitive is not in the
repository; the boundary-inclusive point-in-polygon test of section 4.3
is realised by the standard even-odd ray-casting rule over exact
rationals, with an explicit on-boundary check so that boundary points
count as inside. -/

/-- Whether point p lies on the closed segment from a to b. -/
def onSegment (p a b : Coord) : Bool :=
  ((b.lon - a.lon) * (p.lat - a.lat) == (b.lat - a.lat) * (p.lon - a.lon)) &&
  (min a.lon b.lon ≤ p.lon && p.lon ≤ max a.lon b.lon) &&
  (min a.lat b.lat ≤ p.lat && p.lat ≤ max a.lat b.lat)

/-- The edge list of a polygon ring given by its vertices (the closing
edge from the last vertex back to the first is included). -/
def ringEdges (ring : List Coord) : List (Coord × Coord) :=
  ring.zip (ring.rotate 1)

/-- Whether p lies on the boundary of the ring. -/
def onBoundary (p : Coord) (ring : List Coord) : Bool :=
  (ringEdges ring).any (fun e => onSegment p e.1 e.2)

/-- One step of the even-odd ray-casting rule: does the horizontal ray
from p to the west cross edge (a, b)? -/
def rayCrosses (p a b : Coord) : Bool :=
  (decide (a.lat ≤ p.lat) != decide (b.lat ≤ p.lat)) &&
  decide (p.lon < a.lon + (b.lon - a.lon) * (p.lat - a.lat) / (b.lat - a.lat))

/-- Strict interior test: even-odd rule with the boundary explicitly
excluded. -/
def strictlyInside (p : Coord) (ring : List Coord) : Bool :=
  !onBoundary p ring &&
  ((ringEdges ring).filter (fun e => rayCrosses p e.1 e.2)).length % 2 == 1

/-- Boundary-inclusive point-in-polygon test: p is inside or on the
boundary of the ring. -/
def pointInPoly (p : Coord) (ring : List Coord) : Bool :=
  onBoundary p ring || strictlyInside p ring

/-! ### Reference layers and the Overlay Engine -/

/-- A reference-layer feature: polygon ring, attribute mapping, and a
feature identifier (the provinceList fallback of section 4.3). -/
structure Feature where
  ring : List Coord
  attrs : List (String × String)
  fid : String
deriving DecidableEq, Inhabited

/-- The three reference-layer categories. -/
inductive Category
  | licensing
  | conservation
  | maritimeBoundary
deriving DecidableEq, Inhabited

/-- The process-wide, read-only reference layers, passed by dependency
injection as section 9 prescribes. -/
structure ReferenceLayers where
  licensing : List Feature
  conservation : List Feature
  maritimeBoundary : List Feature
deriving DecidableEq, Inhabited

/-- Orientation sign of the triple (a, b, c): the cross product
(b - a) x (c - a). -/
def orient (a b c : Coord) : ℚ :=
  (b.lon - a.lon) * (c.lat - a.lat) - (b.lat - a.lat) * (c.lon - a.lon)

/-- Whether segments (a, b) and (c, d) cross properly (at a single
interior point of both). -/
def properCross (a b c d : Coord) : Bool :=
  (orient a b c * orient a b d < 0) && (orient c d a * orient c d b < 0)

/-- Modelled from the spec: the polygon-polygon nonzero-shared-area
intersection primitive of section 4.3 is not in the repository; it is
realised as: some vertex of one ring lies strictly inside the other, or
two edges cross properly.  Boundary touching alone does not count. -/
def polygonsShareArea (r1 r2 : List Coord) : Bool :=
  r1.any (fun v => strictlyInside v r2) ||
  r2.any (fun v => strictlyInside v r1) ||
  (ringEdges r1).any (fun e1 =>
    (ringEdges r2).any (fun e2 => properCross e1.1 e1.2 e2.1 e2.2))

/-- Modelled from the spec: whether a built Geometry matches one
reference feature (section 4.3).  A PointSet matches when any of its
points lies inside or on the boundary of the feature polygon; a Polygon
matches when it shares a nonzero amount of area with the feature
polygon. -/
def matchesFeature (g : Geometry) (f : Feature) : Bool :=
  match g with
  | .pointSet pts => pts.any (fun p => pointInPoly (coordOf p) f.ring)
  | .polygon ring => polygonsShareArea (ring.map coordOf) f.ring

/-- The distinct reference features matched by the geometry, in layer
order, duplicates of the same feature suppressed. -/
def matchedFeatures (g : Geometry) (layer : List Feature) : List Feature :=
  (layer.filter (fun f => matchesFeature g f)).dedup

/-- Per-category overlap report (section 3). -/
structure OverlapReport where
  hasOverlap : Bool
  overlapCount : Nat
  matchedAttrs : List (List (String × String))
  message : String
  provinceList : List String
deriving DecidableEq, Inhabited

/-- The configuration constant naming the province attribute of
maritime-boundary features. -/
def provinceAttrKey : String := "WP"

/-- The province value derived from one matched feature: the designated
attribute if present, the feature identifier otherwise. -/
def provinceOf (f : Feature) : String :=
  match f.attrs.lookup provinceAttrKey with
  | some v => v
  | none => f.fid

/-- Modelled from the spec: the Overlay Engine evaluated on one
reference-layer category (section 4.3).  Matching is evaluated against
every feature independently; overlapCount counts distinct matched
features; the maritime-boundary category derives a deduplicated
provinceList in first-match order. -/
def overlayCategory (g : Geometry) (layer : List Feature) (cat : Category) :
    OverlapReport :=
  let matched := matchedFeatures g layer
  { hasOverlap := !matched.isEmpty
    overlapCount := matched.length
    matchedAttrs := matched.map (fun f => f.attrs)
    message :=
      if matched.isEmpty then "No overlap detected"
      else "Geometry overlaps " ++ toString matched.length ++ " zone(s)"
    provinceList :=
      if cat = .maritimeBoundary then (matched.map provinceOf).dedup else [] }

/-! ### Coordinate Parser

Modelled from the spec: the backend Coordinate Parser (section 4.1) is
not in the repository; only its external contract is visible.  The
lexical mechanics of splitting a DMS cell into components is a library
capability the spec does not re-specify, so a raw cell is embedded
already split: each numeric component is an Option rational (none for a
non-numeric component) and the hemisphere letter an Option Char (none
when missing). -/

/-- A raw spreadsheet cell value, one of the two accepted forms. -/
inductive RawCell
  | numeric (v : ℚ)
  | nonNumeric
  | dmsText (deg minutes seconds : Option ℚ) (hemi : Option Char)
deriving DecidableEq, Inhabited

/-- A raw spreadsheet row: a latitude cell and a longitude cell. -/
structure RawRow where
  latCell : RawCell
  lonCell : RawCell
deriving DecidableEq, Inhabited

/-- Row-scoped parse failure, naming the row id and the offending
field. -/
structure ParseError where
  rowId : Nat
  field : String
  reason : String
deriving DecidableEq, Inhabited

/-- The hemisphere sign for one letter: N/E positive, S/W negative,
anything else invalid.  isLat selects which pair is legal. -/
def hemiSign (isLat : Bool) (h : Char) : Option ℚ :=
  if isLat then
    if h = 'N' then some 1 else if h = 'S' then some (-1) else none
  else
    if h = 'E' then some 1 else if h = 'W' then some (-1) else none

/-- Modelled from the spec: DMS parsing (section 4.1).  Extracts degree,
minute, second components and the hemisphere letter, and computes
sign * (deg + min/60 + sec/3600).  Fails with a ParseError naming the
row id and offending field when the hemisphere letter is missing or
illegal, a component is non-numeric, or minute/second is >= 60. -/
def parseDMS (rowId : Nat) (field : String) (isLat : Bool)
    (deg minutes seconds : Option ℚ) (hemi : Option Char) :
    Except ParseError ℚ :=
  match hemi with
  | none => .error ⟨rowId, field, "missing hemisphere letter"⟩
  | some h =>
    match hemiSign isLat h with
    | none => .error ⟨rowId, field, "invalid hemisphere letter"⟩
    | some sign =>
      match deg, minutes, seconds with
      | some d, some m, some s =>
        if 60 ≤ m then .error ⟨rowId, field, "minute out of range"⟩
        else if 60 ≤ s then .error ⟨rowId, field, "second out of range"⟩
        else .ok (sign * (d + m / 60 + s / 3600))
      | _, _, _ => .error ⟨rowId, field, "non-numeric component"⟩

/-- Modelled from the spec: parsing of one cell (section 4.1).  In
Decimal-Degree format the cell must be numeric and within the valid
latitude/longitude range; in OSS-UTM (DMS) format the cell is parsed by
parseDMS. -/
def parseCell (fmt : FormatType) (rowId : Nat) (field : String)
    (isLat : Bool) (c : RawCell) : Except ParseError ℚ :=
  match fmt, c with
  | .decimalDegree, .numeric v =>
    if isLat then
      if -90 ≤ v ∧ v ≤ 90 then .ok v
      else .error ⟨rowId, field, "latitude out of range"⟩
    else
      if -180 ≤ v ∧ v ≤ 180 then .ok v
      else .error ⟨rowId, field, "longitude out of range"⟩
  | .decimalDegree, _ => .error ⟨rowId, field, "non-numeric value"⟩
  | .ossUTM, .dmsText d m s h => parseDMS rowId field isLat d m s h
  | .ossUTM, _ => .error ⟨rowId, field, "not a DMS string"⟩

/-- Modelled from the spec: parsing of one row into a CoordinateRecord
(section 4.1).  seq is the 0-based original row order; the row id is
1-based. -/
def parseRow (fmt : FormatType) (seq : Nat) (row : RawRow) :
    Except ParseError CoordinateRecord :=
  match parseCell fmt (seq + 1) "latitude" true row.latCell,
        parseCell fmt (seq + 1) "longitude" false row.lonCell with
  | .ok la, .ok lo => .ok ⟨seq + 1, la, lo, fmt, seq⟩
  | .error e, _ => .error e
  | .ok _, .error e => .error e

/-- Per-row parsing of a whole input, preserving original row order;
n is the 0-based sequence of the first row.  (Per-row parsing may be
distributed in the implementation, but results are re-assembled in
original row order, which this sequential model reflects.) -/
def parseRows (fmt : FormatType) : Nat → List RawRow →
    List (Except ParseError CoordinateRecord)
  | _, [] => []
  | n, r :: rs => parseRow fmt n r :: parseRows fmt (n + 1) rs

/-- The parse errors of a result list, in row order. -/
def collectErrors (rs : List (Except ParseError CoordinateRecord)) :
    List ParseError :=
  rs.filterMap (fun r => match r with | .error e => some e | .ok _ => none)

/-- The successfully parsed records of a result list, in row order. -/
def collectOks (rs : List (Except ParseError CoordinateRecord)) :
    List CoordinateRecord :=
  rs.filterMap (fun r => match r with | .error _ => none | .ok c => some c)

/-! ### Geometry Builder -/

/-- Insufficient vertices for a Polygon. -/
structure InvalidGeometryError where
  message : String
deriving DecidableEq, Inhabited

/-- Auto-close a polygon ring: if the last coordinate differs from the
first, the first record is appended. -/
def autoClose (cs : List CoordinateRecord) : List CoordinateRecord :=
  match cs.head?, cs.getLast? with
  | some f, some l => if coordOf l = coordOf f then cs else cs ++ [f]
  | _, _ => cs

/-- Modelled from the spec: the Geometry Builder (section 4.2).  Point
produces a PointSet unchanged; Polygon requires at least 3 rows, failing
with an InvalidGeometryError otherwise, and auto-closes the ring. -/
def buildGeometry (gt : GeometryType) (coords : List CoordinateRecord) :
    Except InvalidGeometryError Geometry :=
  match gt with
  | .point => .ok (.pointSet coords)
  | .polygon =>
    if coords.length < 3 then
      .error ⟨"Polygon requires at least 3 coordinates"⟩
    else
      .ok (.polygon (autoClose coords))

/-! ### Analyze -/

/-- A minimal GeoJSON geometry value, enough to carry the built Geometry
to the presentation layer. -/
inductive GeoJSONGeom
  | point (lon lat : ℚ)
  | polygonRing (ring : List (ℚ × ℚ))
deriving DecidableEq, Inhabited

/-- GeoJSON FeatureCollection representation of the built Geometry, in
(longitude, latitude) order. -/
def toGeoJSON : Geometry → List GeoJSONGeom
  | .pointSet pts => pts.map (fun p => .point p.longitude p.latitude)
  | .polygon ring => [.polygonRing (ring.map (fun p => (p.longitude, p.latitude)))]

/-- AnalysisResult (section 3): row count, geometry type, ordered
coordinates, GeoJSON representation and the three OverlapReports.
Produced once per analyze request and not persisted. -/
structure AnalysisResult where
  totalRows : Nat
  geometryType : GeometryType
  coordinates : List CoordinateRecord
  geojson : List GeoJSONGeom
  overlapAnalysis : OverlapReport
  overlapKawasan : OverlapReport
  overlap12mil : OverlapReport
deriving DecidableEq, Inhabited

/-- An analyze request fails either with the aggregate of every row's
parse error, or with an invalid-geometry error. -/
inductive AnalyzeError
  | parseErrors (errs : List ParseError)
  | invalidGeometry (e : InvalidGeometryError)
deriving DecidableEq, Inhabited

/-- Modelled from the spec: the Analyze operation (section 6).  All rows
are parsed; if any row is unparseable the whole request fails with the
aggregate error listing every offending row and nothing else is built
(all-or-nothing).  Otherwise the Geometry is built and evaluated against
the three reference-layer categories. -/
def analyze (layers : ReferenceLayers) (fmt : FormatType)
    (gt : GeometryType) (rows : List RawRow) :
    Except AnalyzeError AnalysisResult :=
  let results := parseRows fmt 0 rows
  let errs := collectErrors results
  if errs.isEmpty then
    let coords := collectOks results
    match buildGeometry gt coords with
    | .error e => .error (.invalidGeometry e)
    | .ok g =>
      .ok { totalRows := coords.length
            geometryType := gt
            coordinates := coords
            geojson := toGeoJSON g
            overlapAnalysis := overlayCategory g layers.licensing .licensing
            overlapKawasan := overlayCategory g layers.conservation .conservation
            overlap12mil :=
              overlayCategory g layers.maritimeBoundary .maritimeBoundary }
  else
    .error (.parseErrors errs)

/-! ### Shapefile Encoder

Modelled from the spec: the backend Shapefile Encoder (section 4.4) is
not in the repository.  Bytes are embedded as natural numbers below 256.
The IEEE-754 little-endian double image of a coordinate is abstracted as
a fixed deterministic 8-byte function of the exact rational value (the
bit layout of floating point is outside the shallow embedding); every
other field follows the byte layout of section 4.4. -/

/-- k bytes of n, little-endian. -/
def le : Nat → Nat → List Nat
  | 0, _ => []
  | k + 1, n => n % 256 :: le k (n / 256)

/-- k bytes of n, big-endian. -/
def be (k n : Nat) : List Nat := (le k n).reverse

/-- Deterministic 8-byte image of one rational coordinate (stand-in for
the IEEE-754 little-endian double of section 4.4). -/
def coordBytes (q : ℚ) : List Nat :=
  le 4 q.num.natAbs ++ le 2 (q.den % 65536) ++
    [if q.num < 0 then 1 else 0, 0]

/-- The coordinate pairs of the geometry, in build order. -/
def geomPoints : Geometry → List Coord
  | .pointSet pts => pts.map coordOf
  | .polygon ring => ring.map coordOf

/-- Minimum of a rational list (0 for the empty list). -/
def qMin (qs : List ℚ) : ℚ :=
  match qs with
  | [] => 0
  | q :: rest => rest.foldl min q

/-- Maximum of a rational list (0 for the empty list). -/
def qMax (qs : List ℚ) : ℚ :=
  match qs with
  | [] => 0
  | q :: rest => rest.foldl max q

/-- Bounding box of the geometry as 8 doubles
(xmin, ymin, xmax, ymax, zmin, zmax, mmin, mmax), z/m ranges zero;
x is longitude, y latitude. -/
def bboxBytes (g : Geometry) : List Nat :=
  let pts := geomPoints g
  coordBytes (qMin (pts.map Coord.lon)) ++ coordBytes (qMin (pts.map Coord.lat)) ++
  coordBytes (qMax (pts.map Coord.lon)) ++ coordBytes (qMax (pts.map Coord.lat)) ++
  coordBytes 0 ++ coordBytes 0 ++ coordBytes 0 ++ coordBytes 0

/-- Shape type constant: 1 = Point, 5 = Polygon. -/
def shapeTypeNum : Geometry → Nat
  | .pointSet _ => 1
  | .polygon _ => 5

/-- The .shp records.  One record per point for a PointSet (record
number big-endian 1-based, content length in words big-endian, then
shape type and the x, y doubles little-endian); a single record for a
Polygon (shape type, box, number of parts = 1, number of points, the
part start index 0, then the closed ring in (x, y) order). -/
def shpRecords (g : Geometry) : List Nat :=
  match g with
  | .pointSet pts =>
    (List.range pts.length).flatMap (fun i =>
      let p := coordOf (pts.getD i default)
      be 4 (i + 1) ++ be 4 10 ++ le 4 1 ++ coordBytes p.lon ++ coordBytes p.lat)
  | .polygon ring =>
    let n := ring.length
    be 4 1 ++ be 4 (24 + 8 * n) ++
    le 4 5 ++ bboxBytes (.polygon ring) ++ le 4 1 ++ le 4 n ++ le 4 0 ++
    (ring.map coordOf).flatMap (fun p => coordBytes p.lon ++ coordBytes p.lat)

/-- The 100-byte .shp/.shx header: file code 9994 big-endian, 20 unused
bytes, file length in 16-bit words big-endian, version 1000
little-endian, shape type little-endian, then the bounding box. -/
def shpHeader (g : Geometry) (fileWords : Nat) : List Nat :=
  be 4 9994 ++ List.replicate 20 0 ++ be 4 fileWords ++
  le 4 1000 ++ le 4 (shapeTypeNum g) ++ bboxBytes (.polygon [])

/-- The full .shp bytes. -/
def shpBytes (g : Geometry) : List Nat :=
  let recs := shpRecords g
  shpHeader g ((100 + recs.length) / 2) ++ recs

/-- The .shx index entries: per record, offset in words big-endian and
content length in words big-endian. -/
def shxEntries (g : Geometry) : List Nat :=
  match g with
  | .pointSet pts =>
    (List.range pts.length).flatMap (fun i => be 4 (50 + 14 * i) ++ be 4 10)
  | .polygon ring => be 4 50 ++ be 4 (24 + 8 * ring.length)

/-- The full .shx bytes: the 100-byte header mirrored from .shp, then
one 8-byte entry per record. -/
def shxBytes (g : Geometry) : List Nat :=
  let entries := shxEntries g
  shpHeader g ((100 + entries.length) / 2) ++ entries

/-- The .dbf last-update date (the only permitted non-deterministic
field of the archive). -/
structure DbfDate where
  yy : Nat
  mm : Nat
  dd : Nat
deriving DecidableEq, Inhabited

/-- The three last-update date bytes of the .dbf header. -/
def dateBytes (d : DbfDate) : List Nat :=
  [d.yy % 256, d.mm % 256, d.dd % 256]

/-- The single 32-byte field descriptor of the attribute table: an
identifier field named ID, numeric, width 10. -/
def fieldDescriptor : List Nat :=
  [73, 68] ++ List.replicate 9 0 ++ [78] ++ le 4 0 ++ [10, 0] ++
  List.replicate 14 0

/-- Fixed-width ASCII image of a number, right-aligned in w bytes padded
with spaces. -/
def asciiNum (w n : Nat) : List Nat :=
  let ds := (toString n).toList.map Char.toNat
  List.replicate (w - ds.length) 32 ++ ds

/-- The .dbf records: one row per point for a PointSet, a single row for
a Polygon, each a space deletion flag then the 10-byte identifier. -/
def dbfRecords (g : Geometry) : List Nat :=
  match g with
  | .pointSet pts =>
    (List.range pts.length).flatMap (fun i => 32 :: asciiNum 10 (i + 1))
  | .polygon _ => 32 :: asciiNum 10 1

/-- The .dbf record count: one per feature. -/
def dbfRecordCount : Geometry → Nat
  | .pointSet pts => pts.length
  | .polygon _ => 1

/-- Everything of the .dbf after the version byte and the last-update
date: record count, header length 65, record length 11, 20 reserved
bytes, the field descriptor, terminator 0x0D, the fixed-width records,
file terminator 0x1A. -/
def dbfRest (g : Geometry) : List Nat :=
  le 4 (dbfRecordCount g) ++ le 2 65 ++ le 2 11 ++ List.replicate 20 0 ++
  fieldDescriptor ++ [13] ++ dbfRecords g ++ [26]

/-- The full .dbf bytes: version byte 3, the last-update date, then the
date-independent remainder. -/
def dbfBytes (g : Geometry) (d : DbfDate) : List Nat :=
  3 :: (dateBytes d ++ dbfRest g)

/-- The .prj well-known text for geographic WGS84 (degrees). -/
def prjWKT : String :=
  "GEOGCS[\"GCS_WGS_1984\",DATUM[\"D_WGS_1984\",SPHEROID[\"WGS_1984\",6378137.0,298.257223563]],PRIMEM[\"Greenwich\",0.0],UNIT[\"Degree\",0.0174532925199433]]"

/-- The .prj bytes. -/
def prjBytes : List Nat := prjWKT.toList.map Char.toNat

/-- The archive: the four Shapefile component files sharing one base
filename. -/
structure ShapefileArchive where
  baseName : String
  shp : List Nat
  shx : List Nat
  dbf : List Nat
  prj : List Nat
deriving DecidableEq, Inhabited

/-- Modelled from the spec: the Shapefile Encoder (section 4.4).  Pure
in-memory construction; the .dbf last-update date is the only input
beside the geometry and the base filename. -/
def encodeShapefile (base : String) (g : Geometry) (d : DbfDate) :
    ShapefileArchive :=
  { baseName := base
    shp := shpBytes g
    shx := shxBytes g
    dbf := dbfBytes g d
    prj := prjBytes }

/-! ### Export -/

/-- The body of a download-shapefile request: the resubmitted
coordinates and geometry type of a previous AnalysisResult, plus a base
filename. -/
structure DownloadRequest where
  coordinates : List CoordinateRecord
  geometryType : GeometryType
  filename : String
deriving DecidableEq, Inhabited

/-- Modelled from the spec: the Export operation (section 6).  A pure
function of the resubmitted request payload (and the .dbf date): the
geometry is rebuilt from the resubmitted coordinates and geometry type
and encoded under the requested base filename; no server-side session
state enters. -/
def serverExport (req : DownloadRequest) (d : DbfDate) :
    Except InvalidGeometryError ShapefileArchive :=
  (buildGeometry req.geometryType req.coordinates).map
    (fun g => encodeShapefile req.filename g d)

/-! ### The presentation layer (src/frontend/src/pages/Home.js)

The Home component's state and its two request handlers, embedded from
the source.  An async handler is embedded as a function of the current
state and the eventual backend response, returning the final state and
the list of emitted effects (toasts, network posts, file saves) in
order. -/

/-- An observable effect emitted by a handler. -/
inductive Effect
  | toastSuccess (msg : String)
  | toastError (msg : String)
  | toastInfo (msg : String)
  | postAnalyze (fmt : FormatType) (gt : GeometryType) (fileName : String)
  | postDownload (req : DownloadRequest)
  | saveFile (name : String)
deriving DecidableEq, Inhabited

/-- The Home component's useState fields (file is the selected file's
name, none when no file is selected). -/
structure UIState where
  file : Option String
  formatType : FormatType
  geometryType : GeometryType
  loading : Bool
  result : Option AnalysisResult
  downloadLoading : Bool
deriving DecidableEq, Inhabited

/-- handleAnalyze (Home.js lines 46-76): with no file selected it only
emits an error toast and returns; otherwise it posts the file with the
selected format and geometry type, stores the response as the result on
success or toasts the error detail on failure, and finally clears
loading. -/
def handleAnalyze (s : UIState) (resp : Except String AnalysisResult) :
    UIState × List Effect :=
  match s.file with
  | none => (s, [.toastError "Silakan pilih file Excel terlebih dahulu"])
  | some fn =>
    match resp with
    | .ok data =>
      ({ s with loading := false, result := some data },
       [.postAnalyze s.formatType s.geometryType fn,
        .toastSuccess "Analisis selesai!"])
    | .error msg =>
      ({ s with loading := false },
       [.postAnalyze s.formatType s.geometryType fn, .toastError msg])

/-- The download-shapefile request body built by handleDownload from the
stored result (Home.js lines 83-91): the result's coordinates and
geometry type with the constant base filename. -/
def downloadRequestOf (r : AnalysisResult) : DownloadRequest :=
  ⟨r.coordinates, r.geometryType, "koordinat_output"⟩

/-- handleDownload (Home.js lines 78-102): with no result it returns at
once with no effects; otherwise it posts the resubmitted coordinates and
geometry type with the constant filename, saves the returned blob as
koordinat_output.zip on success or toasts on failure, and finally clears
downloadLoading. -/
def handleDownload (s : UIState) (resp : Except String Unit) :
    UIState × List Effect :=
  match s.result with
  | none => (s, [])
  | some r =>
    match resp with
    | .ok _ =>
      ({ s with downloadLoading := false },
       [.postDownload (downloadRequestOf r),
        .saveFile "koordinat_output.zip",
        .toastSuccess "Shapefile berhasil diunduh!"])
    | .error _ =>
      ({ s with downloadLoading := false },
       [.postDownload (downloadRequestOf r),
        .toastError "Gagal mengunduh shapefile"])

/-! ## Theorems -/

section
set_option allowUnsafeReducibility true
attribute [local semireducible] Rat.add Rat.mul Rat.inv Rat.sub

/-- C1: for every built Geometry and every reference-layer category, the
OverlapReport satisfies overlapCount <= the number of features in that
category, and hasOverlap is true if and only if overlapCount > 0. -/
theorem overlap_report_count_invariant (g : Geometry) (layer : List Feature)
    (cat : Category) :
    (overlayCategory g layer cat).overlapCount ≤ layer.length ∧
    ((overlayCategory g layer cat).hasOverlap = true ↔
      0 < (overlayCategory g layer cat).overlapCount) := by
  constructor
  · show (matchedFeatures g layer).length ≤ layer.length
    exact le_trans (List.dedup_sublist _).length_le (List.length_filter_le _ _)
  · show (!(matchedFeatures g layer).isEmpty) = true ↔
      0 < (matchedFeatures g layer).length
    simp [List.isEmpty_iff, List.length_pos]

/-- C2: a reference feature is matched by a PointSet exactly when at
least one point of the set lies inside or on the boundary of the
feature's polygon, and overlapCount counts distinct matched features
rather than matched points: a nonempty point set entirely inside one
single feature yields overlapCount = 1. -/
theorem pointset_match_counts_features :
    (∀ (pts : List CoordinateRecord) (f : Feature),
        matchesFeature (.pointSet pts) f = true ↔
          ∃ p ∈ pts, pointInPoly (coordOf p) f.ring = true) ∧
    (∀ (pts : List CoordinateRecord) (f : Feature) (cat : Category),
        pts ≠ [] → (∀ p ∈ pts, pointInPoly (coordOf p) f.ring = true) →
        (overlayCategory (.pointSet pts) [f] cat).overlapCount = 1) := by
  constructor
  · intro pts f
    simp [matchesFeature, List.any_eq_true]
  · intro pts f cat hne hall
    have hm : matchesFeature (.pointSet pts) f = true := by
      match pts, hne with
      | p :: ps, _ =>
        simp only [matchesFeature, List.any_eq_true]
        exact ⟨p, List.mem_cons_self p ps, hall p (List.mem_cons_self p ps)⟩
    show (matchedFeatures (.pointSet pts) [f]).length = 1
    simp [matchedFeatures, List.filter, hm]

/-- A shared concrete reference feature: a square with corners (0,0) and
(10,10) in (latitude, longitude). -/
def sqFeature : Feature :=
  ⟨[⟨0, 0⟩, ⟨0, 10⟩, ⟨10, 10⟩, ⟨10, 0⟩], [("NAMA_KK", "Kawasan X")], "F1"⟩

/-- A concrete CoordinateRecord at 0-based row n. -/
def recAt (n : Nat) (la lo : ℚ) : CoordinateRecord :=
  ⟨n + 1, la, lo, .decimalDegree, n⟩

/-- Five concrete points, all strictly inside sqFeature. -/
def fivePts : List CoordinateRecord :=
  [recAt 0 1 1, recAt 1 2 2, recAt 2 3 3, recAt 3 4 4, recAt 4 5 5]

/-- Witness for C2: five points inside the single square feature give
overlapCount = 1. -/
theorem pointset_match_counts_features_witness :
    fivePts ≠ [] ∧
    (overlayCategory (.pointSet fivePts) [sqFeature]
      .conservation).overlapCount = 1 :=
  ⟨by decide,
   pointset_match_counts_features.2 fivePts sqFeature .conservation
     (by decide) (by decide)⟩

/-- C3: for every well-formed DMS value (legal hemisphere letter for the
axis, numeric components, minute and second below 60) the parser returns
sign * (deg + min/60 + sec/3600) with the sign negative exactly for S or
W; a missing hemisphere letter, a non-numeric component, or a minute or
second >= 60 fails with a ParseError naming the row id and the offending
field. -/
theorem dms_parser_contract (rid : Nat) (fld : String) :
    (∀ (isLat : Bool) (d m s : ℚ) (h : Char),
        ((isLat = true ∧ (h = 'N' ∨ h = 'S')) ∨
         (isLat = false ∧ (h = 'E' ∨ h = 'W'))) →
        m < 60 → s < 60 →
        parseDMS rid fld isLat (some d) (some m) (some s) (some h) =
          .ok ((if h = 'S' ∨ h = 'W' then (-1 : ℚ) else 1) *
                (d + m / 60 + s / 3600))) ∧
    (∀ (isLat : Bool) (dO mO sO : Option ℚ),
        parseDMS rid fld isLat dO mO sO none =
          .error ⟨rid, fld, "missing hemisphere letter"⟩) ∧
    (∀ (isLat : Bool) (h : Char) (sgn : ℚ) (dO mO sO : Option ℚ),
        hemiSign isLat h = some sgn →
        (dO = none ∨ mO = none ∨ sO = none) →
        ∃ e : ParseError, parseDMS rid fld isLat dO mO sO (some h) = .error e ∧
          e.rowId = rid ∧ e.field = fld) ∧
    (∀ (isLat : Bool) (h : Char) (sgn : ℚ) (d m s : ℚ),
        hemiSign isLat h = some sgn → (60 ≤ m ∨ 60 ≤ s) →
        ∃ e : ParseError,
          parseDMS rid fld isLat (some d) (some m) (some s) (some h) =
            .error e ∧ e.rowId = rid ∧ e.field = fld) := by
  refine ⟨?_, ?_, ?_, ?_⟩
  · intro isLat d m s h hh hm hs
    rcases hh with ⟨hL, hc2⟩ | ⟨hL, hc2⟩ <;> subst hL <;>
      rcases hc2 with hc | hc <;> subst hc <;>
      simp [parseDMS, hemiSign, not_le.mpr hm, not_le.mpr hs]
  · intro isLat dO mO sO
    rfl
  · intro isLat h sgn dO mO sO hsg hnone
    rcases hnone with h0 | h0 | h0 <;> subst h0
    · exact ⟨⟨rid, fld, "non-numeric component"⟩,
        by cases mO <;> cases sO <;> simp [parseDMS, hsg], rfl, rfl⟩
    · exact ⟨⟨rid, fld, "non-numeric component"⟩,
        by cases dO <;> cases sO <;> simp [parseDMS, hsg], rfl, rfl⟩
    · exact ⟨⟨rid, fld, "non-numeric component"⟩,
        by cases dO <;> cases mO <;> simp [parseDMS, hsg], rfl, rfl⟩
  · intro isLat h sgn d m s hsg hrange
    rcases hrange with h60 | h60
    · exact ⟨⟨rid, fld, "minute out of range"⟩, by simp [parseDMS, hsg, h60],
        rfl, rfl⟩
    · by_cases hm : 60 ≤ m
      · exact ⟨⟨rid, fld, "minute out of range"⟩, by simp [parseDMS, hsg, hm],
          rfl, rfl⟩
      · exact ⟨⟨rid, fld, "second out of range"⟩,
          by simp [parseDMS, hsg, hm, h60], rfl, rfl⟩

/-- Witness for C3: 06°12'30" S parses to -(6 + 12/60 + 30/3600) =
-149/24, and the same value with the hemisphere letter missing fails
naming row 7 and the latitude field. -/
theorem dms_parser_contract_witness :
    parseDMS 7 "latitude" true (some 6) (some 12) (some 30) (some 'S') =
      .ok (-(149 / 24)) ∧
    parseDMS 7 "latitude" true (some 6) (some 12) (some 30) none =
      .error ⟨7, "latitude", "missing hemisphere letter"⟩ := by
  constructor
  · have h := (dms_parser_contract 7 "latitude").1 true 6 12 30 'S'
      (Or.inl ⟨rfl, Or.inr rfl⟩) (by decide) (by decide)
    rw [h]
    simp only [Except.ok.injEq]
    decide
  · exact (dms_parser_contract 7 "latitude").2.1 true (some 6) (some 12)
      (some 30)

/-- C4: the Geometry Builder fails with an InvalidGeometryError on a
Polygon request with fewer than 3 rows, and every successfully built
Polygon ring starts and ends on the same coordinate (the ring is
auto-closed by appending the first record when the last coordinate
differs from the first). -/
theorem polygon_min_rows_and_autoclose (coords : List CoordinateRecord) :
    (coords.length < 3 →
      buildGeometry .polygon coords =
        .error ⟨"Polygon requires at least 3 coordinates"⟩) ∧
    (∀ ring, buildGeometry .polygon coords = .ok (.polygon ring) →
      ∃ f l, ring.head? = some f ∧ ring.getLast? = some l ∧
        coordOf f = coordOf l) := by
  constructor
  · intro h
    simp [buildGeometry, h]
  · intro ring hok
    by_cases h3 : coords.length < 3
    · simp [buildGeometry, h3] at hok
    · simp only [buildGeometry, h3, if_false, Except.ok.injEq,
        Geometry.polygon.injEq] at hok
      subst hok
      obtain ⟨c, cs, rfl⟩ : ∃ c cs, coords = c :: cs := by
        cases coords with
        | nil => simp at h3
        | cons c cs => exact ⟨c, cs, rfl⟩
      cases hlast : (c :: cs).getLast? with
      | none => simp at hlast
      | some l =>
        have hac : autoClose (c :: cs) =
            if coordOf l = coordOf c then c :: cs else (c :: cs) ++ [c] := by
          unfold autoClose
          rw [show (c :: cs).head? = some c from rfl, hlast]
        rw [hac]
        by_cases heq : coordOf l = coordOf c
        · rw [if_pos heq]
          exact ⟨c, l, rfl, hlast, heq.symm⟩
        · rw [if_neg heq]
          exact ⟨c, c, by simp, List.getLast?_concat _, rfl⟩

/-- Witness for C4: a 2-row Polygon request fails, and a 3-row triangle
builds a ring whose first and last coordinates agree. -/
theorem polygon_min_rows_and_autoclose_witness :
    [recAt 0 1 1, recAt 1 2 2].length < 3 ∧
    buildGeometry .polygon [recAt 0 1 1, recAt 1 2 2] =
      .error ⟨"Polygon requires at least 3 coordinates"⟩ ∧
    (∃ f l,
      ([recAt 0 1 1, recAt 1 2 2, recAt 2 1 4,
        recAt 0 1 1] : List CoordinateRecord).head? = some f ∧
      ([recAt 0 1 1, recAt 1 2 2, recAt 2 1 4,
        recAt 0 1 1] : List CoordinateRecord).getLast? = some l ∧
      coordOf f = coordOf l) :=
  ⟨by decide,
   (polygon_min_rows_and_autoclose [recAt 0 1 1, recAt 1 2 2]).1 (by decide),
   (polygon_min_rows_and_autoclose [recAt 0 1 1, recAt 1 2 2, recAt 2 1 4]).2
     [recAt 0 1 1, recAt 1 2 2, recAt 2 1 4, recAt 0 1 1] rfl⟩

/-- Row-indexed lookup into the parse-result list. -/
theorem parseRows_getElem (fmt : FormatType) :
    ∀ (rows : List RawRow) (n i : Nat),
      (parseRows fmt n rows)[i]? =
        rows[i]?.map (fun r => parseRow fmt (n + i) r) := by
  intro rows
  induction rows with
  | nil => intro n i; simp [parseRows]
  | cons r rs ih =>
    intro n i
    cases i with
    | zero => simp [parseRows]
    | succ j =>
      simp only [parseRows, List.getElem?_cons_succ, ih (n + 1) j]
      rw [show n + 1 + j = n + (j + 1) from by omega]

/-- A successfully parsed record carries its 0-based row order as its
sequence. -/
theorem parseRow_ok_sequence (fmt : FormatType) (n : Nat) (row : RawRow)
    (c : CoordinateRecord) (h : parseRow fmt n row = .ok c) :
    c.sequence = n := by
  unfold parseRow at h
  rcases hla : parseCell fmt (n + 1) "latitude" true row.latCell with e | la
  · rw [hla] at h
    simp at h
  · rcases hlo : parseCell fmt (n + 1) "longitude" false row.lonCell with e2 | lo
    · rw [hla, hlo] at h
      simp at h
    · rw [hla, hlo] at h
      simp only [Except.ok.injEq] at h
      rw [← h]

/-- C5: if at least one row is unparseable, the whole Analyze request
fails with the single aggregate error listing every offending row, and
no AnalysisResult is returned. -/
theorem analyze_all_or_nothing (L : ReferenceLayers) (fmt : FormatType)
    (gt : GeometryType) (rows : List RawRow)
    (hfail : ∃ i : Fin rows.length, ∃ e,
      parseRow fmt i (rows.get i) = .error e) :
    analyze L fmt gt rows =
      .error (.parseErrors (collectErrors (parseRows fmt 0 rows))) ∧
    (∀ (i : Fin rows.length) (e : ParseError),
        parseRow fmt i (rows.get i) = .error e →
        e ∈ collectErrors (parseRows fmt 0 rows)) ∧
    ∀ res, analyze L fmt gt rows ≠ .ok res := by
  have hmem : ∀ (i : Fin rows.length) (e : ParseError),
      parseRow fmt i (rows.get i) = .error e →
      e ∈ collectErrors (parseRows fmt 0 rows) := by
    intro i e he
    unfold collectErrors
    rw [List.mem_filterMap]
    refine ⟨parseRow fmt i (rows.get i), ?_, by rw [he]⟩
    have hg : (parseRows fmt 0 rows)[i.1]? =
        some (parseRow fmt i (rows.get i)) := by
      rw [parseRows_getElem fmt rows 0 i.1,
        List.getElem?_eq_getElem i.2]
      simp [List.get_eq_getElem]
    exact List.getElem?_mem hg
  have hnil : collectErrors (parseRows fmt 0 rows) ≠ [] := by
    obtain ⟨i, e, he⟩ := hfail
    intro hcon
    have := hmem i e he
    rw [hcon] at this
    exact List.not_mem_nil e this
  have hE : ((collectErrors (parseRows fmt 0 rows)).isEmpty = true) → False := by
    intro h
    exact hnil (List.isEmpty_iff.mp h)
  have h1 : analyze L fmt gt rows =
      .error (.parseErrors (collectErrors (parseRows fmt 0 rows))) := by
    simp only [analyze]
    rw [if_neg hE]
  refine ⟨h1, hmem, ?_⟩
  intro res hok
  rw [h1] at hok
  cases hok

/-- A shared empty reference-layer fixture. -/
def emptyLayers : ReferenceLayers := ⟨[], [], []⟩

/-- A concrete 2-row input whose second row has a non-numeric latitude
cell. -/
def badRows : List RawRow :=
  [⟨.numeric 1, .numeric 2⟩, ⟨.nonNumeric, .numeric 3⟩]

/-- Witness for C5: the 2-row input with one bad row makes Analyze fail
with the aggregate error, which lists exactly the offending row's
error. -/
theorem analyze_all_or_nothing_witness :
    analyze emptyLayers .decimalDegree .point badRows =
      .error (.parseErrors (collectErrors (parseRows .decimalDegree 0 badRows))) ∧
    (⟨2, "latitude", "non-numeric value"⟩ : ParseError) ∈
      collectErrors (parseRows .decimalDegree 0 badRows) ∧
    collectErrors (parseRows .decimalDegree 0 badRows) =
      [⟨2, "latitude", "non-numeric value"⟩] :=
  ⟨(analyze_all_or_nothing emptyLayers .decimalDegree .point badRows
      ⟨⟨1, by decide⟩, ⟨2, "latitude", "non-numeric value"⟩, rfl⟩).1,
   (analyze_all_or_nothing emptyLayers .decimalDegree .point badRows
      ⟨⟨1, by decide⟩, ⟨2, "latitude", "non-numeric value"⟩, rfl⟩).2.1
     ⟨1, by decide⟩ ⟨2, "latitude", "non-numeric value"⟩ rfl,
   rfl⟩

/-- The sequence of the i-th successfully parsed record is the start
index plus i, provided no row failed. -/
theorem collectOks_sequence (fmt : FormatType) :
    ∀ (rows : List RawRow) (n : Nat),
      collectErrors (parseRows fmt n rows) = [] →
      ∀ (i : Nat) (c : CoordinateRecord),
        (collectOks (parseRows fmt n rows))[i]? = some c →
        c.sequence = n + i := by
  intro rows
  induction rows with
  | nil =>
    intro n _ i c hc
    simp [parseRows, collectOks] at hc
  | cons r rs ih =>
    intro n hE i c hc
    cases hpr : parseRow fmt n r with
    | error e =>
      exfalso
      simp [parseRows, collectErrors, hpr] at hE
    | ok c0 =>
      have hok : collectOks (parseRows fmt n (r :: rs)) =
          c0 :: collectOks (parseRows fmt (n + 1) rs) := by
        simp [parseRows, collectOks, hpr]
      have hE2 : collectErrors (parseRows fmt (n + 1) rs) = [] := by
        simpa [parseRows, collectErrors, hpr] using hE
      rw [hok] at hc
      cases i with
      | zero =>
        simp only [List.getElem?_cons_zero, Option.some.injEq] at hc
        rw [← hc]
        simpa using parseRow_ok_sequence fmt n r c0 hpr
      | succ j =>
        rw [List.getElem?_cons_succ] at hc
        have := ih (n + 1) hE2 j c hc
        omega

/-- C6: row order is preserved end-to-end: in every AnalysisResult that
Analyze returns, the record at position i of coordinates has
sequence = i. -/
theorem analyze_preserves_row_order (L : ReferenceLayers)
    (fmt : FormatType) (gt : GeometryType) (rows : List RawRow)
    (res : AnalysisResult) (h : analyze L fmt gt rows = .ok res) :
    ∀ (i : Nat) (c : CoordinateRecord),
      res.coordinates[i]? = some c → c.sequence = i := by
  intro i c hc
  by_cases hE : (collectErrors (parseRows fmt 0 rows)).isEmpty = true
  · have hEnil : collectErrors (parseRows fmt 0 rows) = [] :=
      List.isEmpty_iff.mp hE
    simp only [analyze] at h
    rw [if_pos hE] at h
    cases hB : buildGeometry gt (collectOks (parseRows fmt 0 rows)) with
    | error e =>
      rw [hB] at h
      cases h
    | ok g =>
      rw [hB] at h
      simp only [Except.ok.injEq] at h
      have hco : res.coordinates = collectOks (parseRows fmt 0 rows) := by
        rw [← h]
      rw [hco] at hc
      simpa using collectOks_sequence fmt rows 0 hEnil i c hc
  · simp only [analyze] at h
    rw [if_neg hE] at h
    cases h

/-- A concrete all-good 2-row Decimal-Degree input. -/
def goodRows : List RawRow :=
  [⟨.numeric 1, .numeric 2⟩, ⟨.numeric 3, .numeric 4⟩]

/-- The AnalysisResult of analyzing goodRows against the empty layers. -/
def goodResult : AnalysisResult :=
  ((analyze emptyLayers .decimalDegree .point goodRows).toOption).getD default

/-- Witness for C6: in the result for goodRows, the record at position 1
has sequence 1. -/
theorem analyze_preserves_row_order_witness :
    goodResult.coordinates[1]? =
      some ⟨2, 3, 4, .decimalDegree, 1⟩ ∧
    (⟨2, 3, 4, .decimalDegree, 1⟩ : CoordinateRecord).sequence = 1 :=
  ⟨rfl,
   analyze_preserves_row_order emptyLayers .decimalDegree .point goodRows
     goodResult rfl 1 ⟨2, 3, 4, .decimalDegree, 1⟩ rfl⟩

/-- C7: an AnalysisResult is not persisted server-side: handleDownload
resubmits exactly the coordinates and geometry type the Analyze call
returned, and the export output is a function of that resubmitted
payload alone — two results agreeing on coordinates and geometry type
produce the same request and the same export, whatever their other
fields or the surrounding UI state. -/
theorem export_depends_only_on_resubmitted_payload (s1 s2 : UIState)
    (r1 r2 : AnalysisResult) (resp : Except String Unit) (d : DbfDate)
    (h1 : s1.result = some r1) (h2 : s2.result = some r2)
    (hc : r1.coordinates = r2.coordinates)
    (hg : r1.geometryType = r2.geometryType) :
    Effect.postDownload (downloadRequestOf r1) ∈ (handleDownload s1 resp).2 ∧
    Effect.postDownload (downloadRequestOf r2) ∈ (handleDownload s2 resp).2 ∧
    downloadRequestOf r1 =
      ⟨r1.coordinates, r1.geometryType, "koordinat_output"⟩ ∧
    downloadRequestOf r1 = downloadRequestOf r2 ∧
    serverExport (downloadRequestOf r1) d =
      serverExport (downloadRequestOf r2) d := by
  have hreq : downloadRequestOf r1 = downloadRequestOf r2 := by
    unfold downloadRequestOf
    rw [hc, hg]
  refine ⟨?_, ?_, rfl, hreq, by rw [hreq]⟩
  · unfold handleDownload
    rw [h1]
    cases resp <;> simp
  · unfold handleDownload
    rw [h2]
    cases resp <;> simp

/-- Fixture for C7: a result with one coordinate. -/
def c7r1 : AnalysisResult :=
  { (default : AnalysisResult) with
      coordinates := [recAt 0 1 1], geometryType := .point }

/-- Fixture for C7: the same coordinates and geometry type as c7r1 but a
different totalRows. -/
def c7r2 : AnalysisResult := { c7r1 with totalRows := 99 }

/-- Fixture for C7: a UI state holding c7r1. -/
def c7s1 : UIState := { (default : UIState) with result := some c7r1 }

/-- Fixture for C7: a UI state with a selected file, holding c7r2. -/
def c7s2 : UIState :=
  { (default : UIState) with file := some "data.xlsx", result := some c7r2 }

/-- Witness for C7: the two states produce identical download requests
and identical exports. -/
theorem export_depends_only_on_resubmitted_payload_witness :
    Effect.postDownload (downloadRequestOf c7r1) ∈
      (handleDownload c7s1 (.ok ())).2 ∧
    Effect.postDownload (downloadRequestOf c7r2) ∈
      (handleDownload c7s2 (.ok ())).2 ∧
    downloadRequestOf c7r1 =
      ⟨c7r1.coordinates, c7r1.geometryType, "koordinat_output"⟩ ∧
    downloadRequestOf c7r1 = downloadRequestOf c7r2 ∧
    serverExport (downloadRequestOf c7r1) ⟨25, 1, 1⟩ =
      serverExport (downloadRequestOf c7r2) ⟨25, 1, 1⟩ :=
  export_depends_only_on_resubmitted_payload c7s1 c7s2 c7r1 c7r2 (.ok ())
    ⟨25, 1, 1⟩ rfl rfl rfl rfl

/-- C8: encoding the same Geometry twice yields byte-identical .shp,
.shx and .prj files and a .dbf of the same length agreeing everywhere
except possibly the three last-update date bytes (offsets 1-3), which
are the only field permitted to differ between the two runs. -/
theorem encode_deterministic_modulo_dbf_date (base : String) (g : Geometry)
    (d1 d2 : DbfDate) :
    (encodeShapefile base g d1).baseName = (encodeShapefile base g d2).baseName ∧
    (encodeShapefile base g d1).shp = (encodeShapefile base g d2).shp ∧
    (encodeShapefile base g d1).shx = (encodeShapefile base g d2).shx ∧
    (encodeShapefile base g d1).prj = (encodeShapefile base g d2).prj ∧
    (encodeShapefile base g d1).dbf.length =
      (encodeShapefile base g d2).dbf.length ∧
    ∀ i : Nat, i = 0 ∨ 4 ≤ i →
      (encodeShapefile base g d1).dbf[i]? =
        (encodeShapefile base g d2).dbf[i]? := by
  refine ⟨rfl, rfl, rfl, rfl, ?_, ?_⟩
  · show (dbfBytes g d1).length = (dbfBytes g d2).length
    simp [dbfBytes, dateBytes]
  · intro i hi
    show (dbfBytes g d1)[i]? = (dbfBytes g d2)[i]?
    rcases hi with rfl | h4
    · rfl
    · obtain ⟨j, rfl⟩ : ∃ j, i = j + 4 := ⟨i - 4, by omega⟩
      show (3 :: (dateBytes d1 ++ dbfRest g))[j + 4]? =
        (3 :: (dateBytes d2 ++ dbfRest g))[j + 4]?
      rw [show j + 4 = (j + 3) + 1 from by omega,
        List.getElem?_cons_succ, List.getElem?_cons_succ,
        List.getElem?_append_right (by simp [dateBytes]),
        List.getElem?_append_right (by simp [dateBytes])]
      rfl

/-- Witness for C8: two encodings of the five-point geometry under
different dates agree at .dbf offset 5. -/
theorem encode_deterministic_modulo_dbf_date_witness :
    (4 ≤ 5) ∧
    (encodeShapefile "koordinat_output" (.pointSet fivePts)
        ⟨24, 12, 31⟩).dbf[5]? =
      (encodeShapefile "koordinat_output" (.pointSet fivePts)
        ⟨25, 6, 15⟩).dbf[5]? :=
  ⟨by decide,
   (encode_deterministic_modulo_dbf_date "koordinat_output"
      (.pointSet fivePts) ⟨24, 12, 31⟩ ⟨25, 6, 15⟩).2.2.2.2.2 5
     (Or.inr (by decide))⟩

/-- C9: with no file selected, handleAnalyze performs no network request
and leaves the whole state — in particular formatType, geometryType,
result and loading — unchanged, emitting only the error toast. -/
theorem no_file_no_request (s : UIState) (resp : Except String AnalysisResult)
    (hf : s.file = none) :
    handleAnalyze s resp =
      (s, [.toastError "Silakan pilih file Excel terlebih dahulu"]) ∧
    (∀ fmt gt fn, Effect.postAnalyze fmt gt fn ∉ (handleAnalyze s resp).2) ∧
    (handleAnalyze s resp).1.formatType = s.formatType ∧
    (handleAnalyze s resp).1.geometryType = s.geometryType ∧
    (handleAnalyze s resp).1.result = s.result ∧
    (handleAnalyze s resp).1.loading = s.loading := by
  have h : handleAnalyze s resp =
      (s, [.toastError "Silakan pilih file Excel terlebih dahulu"]) := by
    unfold handleAnalyze
    rw [hf]
  refine ⟨h, ?_, by rw [h], by rw [h], by rw [h], by rw [h]⟩
  intro fmt gt fn hmem
  rw [h] at hmem
  simp at hmem

/-- Witness for C9: the initial state has no file, and handleAnalyze on
it only toasts. -/
theorem no_file_no_request_witness :
    (default : UIState).file = none ∧
    handleAnalyze default (.error "x") =
      (default, [.toastError "Silakan pilih file Excel terlebih dahulu"]) :=
  ⟨rfl, (no_file_no_request default (.error "x") rfl).1⟩

/-- C10: handleDownload always posts the constant base filename
koordinat_output and saves under the fixed name koordinat_output.zip,
independent of the uploaded file's name and the result's contents; with
no result it performs no request at all. -/
theorem download_uses_constant_filename (s : UIState)
    (resp : Except String Unit) :
    (s.result = none → handleDownload s resp = (s, [])) ∧
    (∀ r, s.result = some r →
      Effect.postDownload ⟨r.coordinates, r.geometryType, "koordinat_output"⟩ ∈
        (handleDownload s resp).2) ∧
    (∀ req, Effect.postDownload req ∈ (handleDownload s resp).2 →
      req.filename = "koordinat_output") ∧
    (∀ r u, s.result = some r → resp = .ok u →
      Effect.saveFile "koordinat_output.zip" ∈ (handleDownload s resp).2) ∧
    (∀ nm, Effect.saveFile nm ∈ (handleDownload s resp).2 →
      nm = "koordinat_output.zip") := by
  refine ⟨?_, ?_, ?_, ?_, ?_⟩
  · intro h0
    unfold handleDownload
    rw [h0]
  · intro r hr
    unfold handleDownload
    rw [hr]
    cases resp <;> simp [downloadRequestOf]
  · intro req hmem
    unfold handleDownload at hmem
    cases hres : s.result with
    | none =>
      rw [hres] at hmem
      simp at hmem
    | some r =>
      rw [hres] at hmem
      cases resp <;> simp [downloadRequestOf] at hmem <;> rw [hmem]
  · intro r u hr hru
    subst hru
    unfold handleDownload
    rw [hr]
    simp
  · intro nm hmem
    unfold handleDownload at hmem
    cases hres : s.result with
    | none =>
      rw [hres] at hmem
      simp at hmem
    | some r =>
      rw [hres] at hmem
      cases resp <;> simp at hmem
      rw [hmem]

/-- Fixture for C10: a result with one coordinate. -/
def c10r : AnalysisResult :=
  { (default : AnalysisResult) with
      coordinates := [recAt 0 1 1], geometryType := .point }

/-- Fixture for C10: a UI state holding c10r under an uploaded file of
an unrelated name. -/
def c10s : UIState :=
  { (default : UIState) with
      file := some "survey_2025.xlsx"
      result := some c10r }

/-- Witness for C10: the empty state downloads nothing; the loaded state
posts the constant filename and saves koordinat_output.zip. -/
theorem download_uses_constant_filename_witness :
    handleDownload (default : UIState) (.ok ()) = (default, []) ∧
    Effect.postDownload
        ⟨c10r.coordinates, c10r.geometryType, "koordinat_output"⟩ ∈
      (handleDownload c10s (.ok ())).2 ∧
    Effect.saveFile "koordinat_output.zip" ∈ (handleDownload c10s (.ok ())).2 :=
  ⟨(download_uses_constant_filename default (.ok ())).1 rfl,
   (download_uses_constant_filename c10s (.ok ())).2.1 c10r rfl,
   (download_uses_constant_filename c10s (.ok ())).2.2.2.1 c10r () rfl rfl⟩

end

end Verdok
